import Mathlib

/-!
Verification development for the OKX futures trading bot.

Shallow embedding of the runtime decision/execution pipeline:
`src/strategies/enhanced_strategy.py` (EnhancedStrategy),
`src/strategies/prediction_models.py` (PricePredictor) and
`src/okx_futures_bot.py` (OKXFuturesBot).

Python floats are modelled as rationals (all constants appearing in the
decision logic are exact decimal fractions); fallible calls are modelled
with `Except`; the mutable python objects are modelled by explicit state
passing (each operation returns its updated state).
-/

namespace OkxBot

/-- The trading signal returned by `EnhancedStrategy`: the python code uses
the strings "BUY"/"SELL" or the value `None`. -/
inductive TradeSignal where
  | BUY
  | SELL
  | NONE
deriving DecidableEq, Repr

/-- One OHLCV row after successful numeric coercion (no NaN in any of the
five numeric columns).  `open_price` renders the python column `open`. -/
structure Bar where
  open_price : ℚ
  high : ℚ
  low : ℚ
  close : ℚ
  volume : ℚ
deriving DecidableEq, Repr

/-- One raw OHLCV row as handed to the strategy: each of the five numeric
cells either coerces to a number (`some`) or becomes NaN (`none`), which is
what `pd.to_numeric(..., errors="coerce")` produces. -/
structure RawBar where
  open_price : Option ℚ
  high : Option ℚ
  low : Option ℚ
  close : Option ℚ
  volume : Option ℚ
deriving DecidableEq, Repr

/-- A raw row survives `df.dropna()` iff none of its cells is NaN. -/
def RawBar.toBar (r : RawBar) : Option Bar :=
  match r.open_price, r.high, r.low, r.close, r.volume with
  | some o, some h, some l, some c, some v =>
      some { open_price := o, high := h, low := l, close := c, volume := v }
  | _, _, _, _, _ => none

/-- `df.dropna()` over the five coerced numeric columns
(enhanced_strategy.py line 58). -/
def dropna (df : List RawBar) : List Bar :=
  df.filterMap RawBar.toBar

/-- The six discrete technical signals (each valued in -1, 0, 1 by the
producing code, though the dict itself stores plain floats). -/
structure TechnicalSignals where
  ema_signal : ℚ
  rsi_signal : ℚ
  bb_signal : ℚ
  macd_signal : ℚ
  volume_signal : ℚ
  momentum_signal : ℚ
deriving DecidableEq, Repr

/-- The all-zero signal set returned for windows shorter than 21 rows
(enhanced_strategy.py lines 60-68). -/
def zero_signals : TechnicalSignals :=
  { ema_signal := 0, rsi_signal := 0, bb_signal := 0,
    macd_signal := 0, volume_signal := 0, momentum_signal := 0 }

/-- `EnhancedStrategy.calculate_technical_signals` (lines 47-161): coerce
the numeric columns, drop NaN rows, and return the all-zero signal set when
fewer than 21 rows remain.  The branch for windows of length at least 21
computes EMA/RSI/Bollinger/MACD/volume/momentum signals through the
external `ta` library and pandas ewm/rolling statistics (floating point,
with irrational intermediate values); that external computation is passed
in as the parameter `fullSig`, applied to the cleaned rows. -/
def calculate_technical_signals (fullSig : List Bar → TechnicalSignals)
    (df : List RawBar) : TechnicalSignals :=
  let clean := dropna df
  if clean.length < 21 then zero_signals else fullSig clean

/-- One entry of `EnhancedStrategy.signal_history`
(enhanced_strategy.py lines 220-227). -/
structure HistoryEntry where
  signal : TradeSignal
  strength : ℚ
  technical_score : ℚ
  ml_prediction : ℚ
  ml_confidence : ℚ
  combined_score : ℚ
deriving DecidableEq, Repr

/-- The fixed-weight technical score of `combine_signals`
(enhanced_strategy.py lines 179-192); all six keys are always present in
the dict produced by `calculate_technical_signals`. -/
def technical_score (t : TechnicalSignals) : ℚ :=
  t.ema_signal * (3/10) + t.rsi_signal * (2/10) + t.bb_signal * (15/100) +
    t.macd_signal * (15/100) + t.volume_signal * (1/10) +
    t.momentum_signal * (1/10)

/-- `np.sign` on an exact rational. -/
def np_sign (x : ℚ) : ℚ :=
  if 0 < x then 1 else if x < 0 then -1 else 0

/-- `ml_weight = min(ml_confidence, 0.8)` (line 195). -/
def ml_weight (ml_confidence : ℚ) : ℚ :=
  min ml_confidence (8/10)

/-- `combined_score` of `combine_signals` (lines 195-199). -/
def combined_score (t : TechnicalSignals) (ml_prediction ml_confidence : ℚ) : ℚ :=
  technical_score t * (1 - ml_weight ml_confidence) +
    np_sign ml_prediction * ml_weight ml_confidence

/-- Thresholding of the combined score (lines 201-210): strictly above 0.3
is BUY, strictly below -0.3 is SELL, otherwise the python value `None`
with strength 0. -/
def threshold_signal (cs : ℚ) : TradeSignal × ℚ :=
  if 3/10 < cs then (TradeSignal.BUY, min |cs| 1)
  else if cs < -(3/10) then (TradeSignal.SELL, min |cs| 1)
  else (TradeSignal.NONE, 0)

/-- Signal decay (lines 212-217): when the history is nonempty and its last
entry carries the same signal value as the current one (python `==`, which
also holds for `None == None`), strength is multiplied by
`self.signal_decay = 0.95`. -/
def apply_decay (history : List HistoryEntry) (sig : TradeSignal)
    (strength : ℚ) : ℚ :=
  match history.getLast? with
  | some last => if last.signal = sig then strength * (95/100) else strength
  | none => strength

/-- History trimming (lines 229-231): keep only the last 100 entries. -/
def trim_history (h : List HistoryEntry) : List HistoryEntry :=
  if 100 < h.length then h.drop (h.length - 100) else h

/-- `EnhancedStrategy.combine_signals` (lines 175-233), with the mutable
`self.signal_history` passed and returned explicitly.  Returns the
(signal, strength) pair and the updated history. -/
def combine_signals (history : List HistoryEntry) (t : TechnicalSignals)
    (ml_prediction ml_confidence : ℚ) :
    (TradeSignal × ℚ) × List HistoryEntry :=
  let ts := technical_score t
  let cs := combined_score t ml_prediction ml_confidence
  let sig := (threshold_signal cs).1
  let strength := apply_decay history sig (threshold_signal cs).2
  let entry : HistoryEntry :=
    { signal := sig, strength := strength, technical_score := ts,
      ml_prediction := ml_prediction, ml_confidence := ml_confidence,
      combined_score := cs }
  ((sig, strength), trim_history (history ++ [entry]))

/-- The computed feature frame produced by `PricePredictor.create_features`
(prediction_models.py lines 27-141): a pandas DataFrame with named columns.
`predict` only inspects the row count, the column-name set, and the final
row of the selected columns, which is what this record carries.
`create_features` itself (rolling statistics over floats, with irrational
standard deviations) is kept abstract and is passed to `predict` as a
function parameter. -/
structure FeatureFrame where
  columns : List String
  lastRow : String → ℚ
  nRows : Nat

/-- Modelled from the spec: the external sklearn `StandardScaler` artifact
loaded with the model ("scaler parameters", spec section 4.2).  Its
`transform` applies `(x - mean) / scale` per feature and, as an external
inference step, can raise (spec section 7 lists "schema mismatch" as an
inference exception) when the input width differs from the fitted width;
the raise is modelled as `Except.error`. -/
structure StandardScaler where
  n_features_in : Nat
  mean : List ℚ
  scale : List ℚ

/-- Modelled from the spec: `StandardScaler.transform`; see `StandardScaler`. -/
def StandardScaler.transform (s : StandardScaler) (x : List ℚ) :
    Except String (List ℚ) :=
  if x.length = s.n_features_in then
    Except.ok ((x.zip (s.mean.zip s.scale)).map
      (fun p => (p.1 - p.2.1) / p.2.2))
  else
    Except.error "X has a different number of features than the fitted scaler"

/-- The opaque trained regressor held in `PricePredictor.model`: an
external sklearn estimator exposing `predict` (which can raise, hence
`Except`) and optionally a list of sub-estimators (`estimators_` on random
forests, `estimators` on gradient boosting; both branches of
prediction_models.py lines 322-359 are textually identical, so one
optional list suffices). -/
structure MLModel where
  predictFn : List ℚ → Except String ℚ
  estimators : Option (List (List ℚ → ℚ))

/-- The state of a `PricePredictor` (prediction_models.py lines 20-25 and
`load_model`): `model` is `None` until trained or loaded. -/
structure PricePredictor where
  model_type : String
  model : Option MLModel
  scaler : Option StandardScaler
  is_trained : Bool
  feature_columns : List String

/-- The hard-coded fallback feature list of `PricePredictor.predict`
(prediction_models.py lines 277-290). -/
def default_feature_columns : List String :=
  ["price_change", "price_change_2", "price_change_5", "price_change_10",
   "price_change_20", "volatility_5", "volatility_10", "volatility_20",
   "volume_change", "volume_ratio", "volume_std",
   "price_vs_sma5", "price_vs_sma20", "price_vs_sma50",
   "ema_cross_9_21", "ema_cross_21_50", "bb_position", "bb_width",
   "rsi_7", "rsi_14", "rsi_21", "macd", "macd_histogram",
   "macd_histogram_change", "stoch_k", "stoch_d", "atr_ratio",
   "williams_r", "cci", "mfi", "hour", "is_weekend", "is_london_open",
   "is_ny_open"]

/-- Confidence from sub-estimator predictions (prediction_models.py lines
330-339): `np.std` of floats is irrational in general, so it is supplied
as the function parameter `npStd`; the mean is exact. -/
def confidence_from_estimators (npStd : List ℚ → ℚ)
    (predictions : List ℚ) : ℚ :=
  if predictions = [] then 1/2
  else
    let pred_std := npStd predictions
    let pred_mean := predictions.sum / (predictions.length : ℚ)
    if 1/100000000 < |pred_mean| then
      max (1/10) (min 1 (1 - pred_std / |pred_mean|))
    else 1/2

/-- `PricePredictor.predict` (prediction_models.py lines 262-361), with the
mutated object returned alongside the result and a python raise modelled
as `Except.error`.  Points of note, all from the source: an untrained
predictor raises `ValueError` before anything else (lines 264-265); the
feature-column list is reassigned in place when it is empty (lines
274-290) or when expected features are missing from the computed frame
(lines 296-299); only the `self.model.predict` call is inside a
`try/except` (lines 315-319), so a failure of the scaler transform
propagates to the caller while a model failure degrades to `(0.0, 0.0)`;
a `None` model raises `AttributeError` inside that same try block, which
is likewise caught and degrades to `(0.0, 0.0)`. -/
def PricePredictor.predict (cf : List RawBar → FeatureFrame)
    (npStd : List ℚ → ℚ) (self : PricePredictor) (df : List RawBar) :
    Except String ((ℚ × ℚ) × PricePredictor) :=
  if self.is_trained = false then
    Except.error "Model must be trained before making predictions"
  else
    let df_features := cf df
    if df_features.nRows = 0 then Except.ok ((0, 0), self)
    else
      let self1 :=
        if self.feature_columns = [] then
          { self with feature_columns := default_feature_columns }
        else self
      let available :=
        self1.feature_columns.filter (fun c => c ∈ df_features.columns)
      let missing :=
        self1.feature_columns.filter (fun c => c ∉ df_features.columns)
      let self2 :=
        if missing = [] then self1
        else { self1 with feature_columns := available }
      if available = [] then Except.ok ((0, 0), self2)
      else
        let latest_features := available.map df_features.lastRow
        let scaled : Except String (List ℚ) :=
          match self2.scaler with
          | some s => s.transform latest_features
          | none => Except.ok latest_features
        match scaled with
        | Except.error e => Except.error e
        | Except.ok latest_scaled =>
          match self2.model with
          | none => Except.ok ((0, 0), self2)
          | some m =>
            match m.predictFn latest_scaled with
            | Except.error _ => Except.ok ((0, 0), self2)
            | Except.ok prediction =>
              let confidence :=
                match m.estimators with
                | some ests =>
                    confidence_from_estimators npStd
                      (ests.map (fun e => e latest_scaled))
                | none => 1/2
              Except.ok ((prediction, confidence), self2)

/-- The predictor after `predict`'s empty-list default step
(prediction_models.py lines 274-290): restates the intermediate value
`self` holds after that block, for use in theorem statements. -/
def predict_self1 (self : PricePredictor) : PricePredictor :=
  if self.feature_columns = [] then
    { self with feature_columns := default_feature_columns }
  else self

/-- `available_features` of `predict` (prediction_models.py line 293),
computed from the post-default state. -/
def predict_available (cf : List RawBar → FeatureFrame)
    (self : PricePredictor) (df : List RawBar) : List String :=
  (predict_self1 self).feature_columns.filter (fun c => c ∈ (cf df).columns)

/-- `missing_features` of `predict` (prediction_models.py line 294). -/
def predict_missing (cf : List RawBar → FeatureFrame)
    (self : PricePredictor) (df : List RawBar) : List String :=
  (predict_self1 self).feature_columns.filter (fun c => c ∉ (cf df).columns)

/-- The predictor after `predict`'s missing-feature reassignment
(prediction_models.py lines 296-299). -/
def predict_self2 (cf : List RawBar → FeatureFrame)
    (self : PricePredictor) (df : List RawBar) : PricePredictor :=
  if predict_missing cf self df = [] then predict_self1 self
  else { predict_self1 self with
          feature_columns := predict_available cf self df }

/-- `latest_scaled` of `predict` (prediction_models.py lines 306-312) as
an `Except`: the scaler transform applied to the last row of the
available features, or that row unchanged when no scaler is stored. -/
def predict_scaled (cf : List RawBar → FeatureFrame)
    (self : PricePredictor) (df : List RawBar) : Except String (List ℚ) :=
  match (predict_self2 cf self df).scaler with
  | some s =>
      s.transform ((predict_available cf self df).map (cf df).lastRow)
  | none =>
      Except.ok ((predict_available cf self df).map (cf df).lastRow)

/-- The state of an `EnhancedStrategy` (enhanced_strategy.py lines 20-29):
the predictor reference (never set by the bot's constructor path, set by
`initialize_predictor` otherwise) and the per-instrument signal history.
The scalar attributes `min_confidence`, `min_prediction_threshold = 0.001`
and `signal_decay = 0.95` are constants fixed in `__init__` and are
inlined at their use sites. -/
structure EnhancedStrategy where
  predictor : Option PricePredictor
  signal_history : List HistoryEntry

/-- `EnhancedStrategy.get_ml_prediction` (enhanced_strategy.py lines
163-173): neutral `(0.0, 0.0)` when the predictor is absent or untrained,
and any exception from `predict` is caught and likewise degraded; the
predictor state mutated by `predict` is threaded back. -/
def get_ml_prediction (cf : List RawBar → FeatureFrame)
    (npStd : List ℚ → ℚ) (st : EnhancedStrategy) (df : List RawBar) :
    (ℚ × ℚ) × EnhancedStrategy :=
  match st.predictor with
  | none => ((0, 0), st)
  | some p =>
    if p.is_trained = false then ((0, 0), st)
    else
      match PricePredictor.predict cf npStd p df with
      | Except.error _ => ((0, 0), st)
      | Except.ok r => (r.1, { st with predictor := some r.2 })

/-- The detail dict built by `generate_signal` (enhanced_strategy.py lines
260-267); the wall-clock `timestamp` field is omitted. -/
structure SignalInfo where
  signal : TradeSignal
  strength : ℚ
  technical_signals : TechnicalSignals
  ml_prediction : ℚ
  ml_confidence : ℚ

/-- `EnhancedStrategy.generate_signal` (enhanced_strategy.py lines
235-269): technical signals, ML prediction, fusion, then the two
post-filters (suppress to `None`/0 when strength is below 0.4 or when the
absolute ML prediction is below `min_prediction_threshold = 0.001`); both
filters live inside `if signal:` and run sequentially.  Note the history
update inside `combine_signals` happens before the post-filters. -/
def generate_signal (cf : List RawBar → FeatureFrame)
    (npStd : List ℚ → ℚ) (fullSig : List Bar → TechnicalSignals)
    (st : EnhancedStrategy) (df : List RawBar) :
    (TradeSignal × ℚ) × SignalInfo × EnhancedStrategy :=
  let tech := calculate_technical_signals fullSig df
  let mlr := get_ml_prediction cf npStd st df
  let cres := combine_signals mlr.2.signal_history tech mlr.1.1 mlr.1.2
  let filtered :=
    if cres.1.1 ≠ TradeSignal.NONE then
      let f1 :=
        if cres.1.2 < 4/10 then (TradeSignal.NONE, (0 : ℚ)) else cres.1
      if |mlr.1.1| < 1/1000 then (TradeSignal.NONE, (0 : ℚ)) else f1
    else cres.1
  (filtered,
   { signal := filtered.1, strength := filtered.2, technical_signals := tech,
     ml_prediction := mlr.1.1, ml_confidence := mlr.1.2 },
   { mlr.2 with signal_history := cres.2 })

/-- Outcome of one `redis.get` + `json.loads` round trip: the key can be
absent (`get` returns a falsy value), the read or the parse can raise
(`failed`, caught by the surrounding `except`), or a parsed value comes
back. -/
inductive StoreRead (α : Type) where
  | absent
  | failed
  | value (a : α)
deriving DecidableEq, Repr

/-- The parsed `trading:settings` JSON document; the `auto_trading` key may
be missing. -/
structure TradingSettings where
  auto_trading : Option Bool
deriving DecidableEq, Repr

/-- The parsed `trading:status` JSON document; the `status` key may be
missing. -/
structure TradingStatusDoc where
  status : Option String
deriving DecidableEq, Repr

/-- The shared Redis control store as seen by the bot: the two keys it
reads each cycle. -/
structure ControlStore where
  settings : StoreRead TradingSettings
  status : StoreRead TradingStatusDoc
deriving DecidableEq, Repr

/-- `OKXFuturesBot._get_auto_trading_status` (okx_futures_bot.py lines
177-187): defaults to `True` when the key is absent, when the read or the
parse raises, and when the parsed dict lacks the `auto_trading` key. -/
def get_auto_trading_status (s : ControlStore) : Bool :=
  match s.settings with
  | StoreRead.value d => d.auto_trading.getD true
  | StoreRead.absent => true
  | StoreRead.failed => true

/-- `OKXFuturesBot._get_trading_status` (okx_futures_bot.py lines
189-199): defaults to "stopped" on an absent key, a failed read/parse, or
a missing `status` key. -/
def get_trading_status (s : ControlStore) : String :=
  match s.status with
  | StoreRead.value d => d.status.getD "stopped"
  | StoreRead.absent => "stopped"
  | StoreRead.failed => "stopped"

/-- The bot's trading parameters (okx_futures_bot.py lines 51-58).
`leverage` is an int in python; it only ever enters products, so it is
carried as a rational here. -/
structure BotConfig where
  leverage : ℚ
  risk_per_trade : ℚ
  min_signal_strength : ℚ
  stop_loss_pct : ℚ
  take_profit_pct : ℚ
  symbols : List String

/-- One tracked position (okx_futures_bot.py lines 318-325).  The
`datetime.now()` timestamp is an external clock reading supplied by the
environment. -/
structure PositionInfo where
  side : String
  entry_price : ℚ
  quantity : ℚ
  order_id : String
  signal_strength : ℚ
  timestamp : ℚ
deriving DecidableEq, Repr

/-- An order request as passed to `trade_api.set_order`; trigger prices
are present only on the conditional (stop/take-profit) orders. -/
structure OrderReq where
  instId : String
  tdMode : String
  side : String
  ordType : String
  sz : ℚ
  slTriggerPx : Option ℚ
  tpTriggerPx : Option ℚ
deriving DecidableEq, Repr

/-- The part of the exchange response the bot inspects. -/
structure OrderResp where
  code : String
  ordId : String
deriving DecidableEq, Repr

/-- The external world the bot's execution path touches: the account
balance snapshot (`_get_balance`, already defaulted to 0.0 on failure by
its own handler), the clock, and the exchange order endpoint, whose raise
is modelled as `Except.error`. -/
structure ExecEnv where
  balance : ℚ
  now : ℚ
  set_order : OrderReq → Except String OrderResp

/-- Python `symbol in self.positions` / `self.positions[symbol]` over the
positions dict, modelled as an association list with unique keys. -/
def lookupPos : List (String × PositionInfo) → String → Option PositionInfo
  | [], _ => none
  | kv :: rest, s => if kv.1 = s then some kv.2 else lookupPos rest s

/-- `OKXFuturesBot._place_stop_orders` (okx_futures_bot.py lines 338-377):
computes the bracket prices from the side, then submits the stop-loss and
take-profit conditional orders; the surrounding `try` means a raise on the
first submission skips the second, and responses are never inspected.
Returns the list of submitted requests. -/
def place_stop_orders (env : ExecEnv) (cfg : BotConfig) (symbol : String)
    (side : String) (entry_price quantity : ℚ) : List OrderReq :=
  let stop_price :=
    if side = "buy" then entry_price * (1 - cfg.stop_loss_pct)
    else entry_price * (1 + cfg.stop_loss_pct)
  let take_profit_price :=
    if side = "buy" then entry_price * (1 + cfg.take_profit_pct)
    else entry_price * (1 - cfg.take_profit_pct)
  let stop_side := if side = "buy" then "sell" else "buy"
  let sl : OrderReq :=
    { instId := symbol, tdMode := "cross", side := stop_side,
      ordType := "conditional", sz := quantity,
      slTriggerPx := some stop_price, tpTriggerPx := none }
  let tp : OrderReq :=
    { instId := symbol, tdMode := "cross", side := stop_side,
      ordType := "conditional", sz := quantity,
      slTriggerPx := none, tpTriggerPx := some take_profit_price }
  match env.set_order sl with
  | Except.error _ => [sl]
  | Except.ok _ => [sl, tp]

/-- `OKXFuturesBot._execute_trade` (okx_futures_bot.py lines 289-336),
with the positions dict passed and returned explicitly and the submitted
order requests collected.  An existing position makes the call a logged
no-op before anything else; a raise from the order call is caught by the
method's own handler (state unchanged); a response with `code != "0"`
stores nothing and skips the bracket orders. -/
def execute_trade (env : ExecEnv) (cfg : BotConfig)
    (positions : List (String × PositionInfo)) (symbol signal : String)
    (price strength : ℚ) :
    List (String × PositionInfo) × List OrderReq :=
  match lookupPos positions symbol with
  | some _ => (positions, [])
  | none =>
    let balance := env.balance
    let position_size := balance * cfg.risk_per_trade * cfg.leverage
    let side := if signal = "BUY" then "buy" else "sell"
    let quantity := position_size / price
    let req : OrderReq :=
      { instId := symbol, tdMode := "cross", side := side,
        ordType := "market", sz := quantity,
        slTriggerPx := none, tpTriggerPx := none }
    match env.set_order req with
    | Except.error _ => (positions, [req])
    | Except.ok resp =>
      if resp.code = "0" then
        let pos : PositionInfo :=
          { side := side, entry_price := price, quantity := quantity,
            order_id := resp.ordId, signal_strength := strength,
            timestamp := env.now }
        let stops := place_stop_orders env cfg symbol side price quantity
        ((symbol, pos) :: positions, req :: stops)
      else (positions, [req])

/-- The bot state the loop and shutdown path touch: the positions dict and
the `self.running` flag. -/
structure BotState where
  positions : List (String × PositionInfo)
  running : Bool
deriving DecidableEq, Repr

/-- The close order built for one tracked position by `OKXFuturesBot.stop`
(okx_futures_bot.py lines 430-438): a market order on the opposite side
sized to the tracked quantity. -/
def close_order_req (kv : String × PositionInfo) : OrderReq :=
  { instId := kv.1, tdMode := "cross",
    side := if kv.2.side = "buy" then "sell" else "buy",
    ordType := "market", sz := kv.2.quantity,
    slTriggerPx := none, tpTriggerPx := none }

/-- `OKXFuturesBot.stop` (okx_futures_bot.py lines 421-442): set
`self.running = False`, then for each tracked position submit its close
order; a raise on one submission is caught per symbol and the iteration
continues.  The positions dict itself is never modified: no entry is
deleted after its close order is sent.  Returns the new state and the
submitted close requests (responses are never inspected). -/
def stop (st : BotState) : BotState × List OrderReq :=
  ({ positions := st.positions, running := false },
   st.positions.map close_order_req)

/-- One pass of the `while self.running:` body of `OKXFuturesBot.run`
(okx_futures_bot.py lines 384-419).  `market` stands for
`_get_market_data` (external candle fetch, already degraded to an empty
frame by its own handler) and `gen` for `_generate_signal` (strategy
invocation plus live ticker read, returning `(None, 0.0)` on failure via
its own handler); both are supplied as oracles since this theorem layer
exercises only the status gating and the trade-execution plumbing around
them.  Returns the new bot state, the list of symbols the per-instrument
loop body ran for, and all submitted order requests.  A status other than
"running" (here including "emergency_stopped") sleeps and re-polls: it
processes no instrument, submits nothing, changes nothing, and does not
clear `self.running`. -/
def run_iteration (store : ControlStore) (env : ExecEnv)
    (market : String → List RawBar)
    (gen : String → List RawBar → Option String × ℚ)
    (cfg : BotConfig) (st : BotState) :
    BotState × List String × List OrderReq :=
  let trading_status := get_trading_status store
  let auto_trading_enabled := get_auto_trading_status store
  if trading_status ≠ "running" then (st, [], [])
  else
    let step := fun (acc : List (String × PositionInfo) × List String × List OrderReq)
        (symbol : String) =>
      let df := market symbol
      if df.isEmpty then (acc.1, acc.2.1 ++ [symbol], acc.2.2)
      else
        let res := gen symbol df
        match res.1 with
        | none => (acc.1, acc.2.1 ++ [symbol], acc.2.2)
        | some signal =>
          if cfg.min_signal_strength < res.2 then
            let current_price := ((df.getLast?.map (fun b => b.close)).join).getD 0
            if auto_trading_enabled then
              let tr := execute_trade env cfg acc.1 symbol signal
                current_price res.2
              (tr.1, acc.2.1 ++ [symbol], acc.2.2 ++ tr.2)
            else (acc.1, acc.2.1 ++ [symbol], acc.2.2)
          else (acc.1, acc.2.1 ++ [symbol], acc.2.2)
    let out := cfg.symbols.foldl step (st.positions, [], [])
    ({ positions := out.1, running := st.running }, out.2.1, out.2.2)

/-! ## Concrete fixtures used by witnesses and counterexamples -/

/-- A fully numeric OHLCV row. -/
def rb1 : RawBar :=
  { open_price := some 1, high := some 1, low := some 1,
    close := some 1, volume := some 1 }

/-- A 21-row window that survives `dropna` intact. -/
def df21 : List RawBar := List.replicate 21 rb1

/-- All six technical signals firing bullishly. -/
def all_one_signals : TechnicalSignals :=
  { ema_signal := 1, rsi_signal := 1, bb_signal := 1,
    macd_signal := 1, volume_signal := 1, momentum_signal := 1 }

/-- Only the EMA crossover firing bearishly (technical score -0.3). -/
def ema_down_signals : TechnicalSignals :=
  { ema_signal := -1, rsi_signal := 0, bb_signal := 0,
    macd_signal := 0, volume_signal := 0, momentum_signal := 0 }

/-- A feature-frame computation that always yields the empty frame. -/
def cf0 : List RawBar → FeatureFrame :=
  fun _ => { columns := [], lastRow := fun _ => 0, nRows := 0 }

/-- A feature-frame computation yielding one row with the single column
`price_change`. -/
def cf_pc : List RawBar → FeatureFrame :=
  fun _ => { columns := ["price_change"], lastRow := fun _ => 0, nRows := 1 }

/-- A trivial stand-in for `np.std`. -/
def npstd0 : List ℚ → ℚ := fun _ => 0

/-- An untrained predictor, as `PricePredictor()` constructs it. -/
def untrained : PricePredictor :=
  { model_type := "gradient_boosting", model := none, scaler := none,
    is_trained := false, feature_columns := [] }

/-- A trained predictor fed by `cf0` (whose frame is empty). -/
def trained_empty_frame : PricePredictor :=
  { model_type := "gradient_boosting", model := none, scaler := none,
    is_trained := true, feature_columns := [] }

/-- A loaded model whose regressor always predicts 0 and exposes no
sub-estimators. -/
def model_zero : MLModel :=
  { predictFn := fun _ => Except.ok 0, estimators := none }

/-- A loaded model whose regressor always predicts 0.01. -/
def model_buy : MLModel :=
  { predictFn := fun _ => Except.ok (1/100), estimators := none }

/-- A trained predictor expecting two features, of which `cf_pc` only
supplies `price_change`. -/
def p_two_cols : PricePredictor :=
  { model_type := "gradient_boosting", model := some model_zero,
    scaler := none, is_trained := true,
    feature_columns := ["price_change", "volume_ratio"] }

/-- A trained predictor whose expected single feature `cf_pc` supplies. -/
def p_const : PricePredictor :=
  { model_type := "gradient_boosting", model := some model_buy,
    scaler := none, is_trained := true,
    feature_columns := ["price_change"] }

/-- A trained predictor none of whose expected features `cf_pc`
supplies (empty intersection). -/
def p_missing_all : PricePredictor :=
  { model_type := "gradient_boosting", model := some model_zero,
    scaler := none, is_trained := true,
    feature_columns := ["volume_ratio"] }

/-- A scaler fitted on two features. -/
def scaler_two : StandardScaler :=
  { n_features_in := 2, mean := [0, 0], scale := [1, 1] }

/-- A trained predictor whose stored scaler expects two features while
`cf_pc` supplies only one, so the transform raises. -/
def p_scaler_bad : PricePredictor :=
  { model_type := "gradient_boosting", model := some model_zero,
    scaler := some scaler_two, is_trained := true,
    feature_columns := ["price_change"] }

/-- A predictor marked trained but holding no model (the original
load_model format leaves `model` as the raw blob; here: absent). -/
def p_model_none : PricePredictor :=
  { model_type := "unknown", model := none, scaler := none,
    is_trained := true, feature_columns := ["price_change"] }

/-- A loaded model whose regressor raises on every call. -/
def model_fail : MLModel :=
  { predictFn := fun _ => Except.error "inference failed",
    estimators := none }

/-- A trained predictor whose model raises on inference. -/
def p_model_fail : PricePredictor :=
  { model_type := "gradient_boosting", model := some model_fail,
    scaler := none, is_trained := true,
    feature_columns := ["price_change"] }

/-- A strategy with no prediction artifact loaded, as the bot's
`_initialize_components` builds it (the loaded predictors dict is never
handed to the strategy). -/
def strat_none : EnhancedStrategy :=
  { predictor := none, signal_history := [] }

/-- A strategy holding the constant-0.01 predictor. -/
def strat_const : EnhancedStrategy :=
  { predictor := some p_const, signal_history := [] }

/-- An external signal computation returning all-bullish signals. -/
def fullsig_one : List Bar → TechnicalSignals := fun _ => all_one_signals

/-- An external signal computation returning the bearish-EMA-only set. -/
def fullsig_emadown : List Bar → TechnicalSignals := fun _ => ema_down_signals

/-- A history entry recording a BUY decision. -/
def entry_buy : HistoryEntry :=
  { signal := TradeSignal.BUY, strength := 1, technical_score := 1,
    ml_prediction := 1, ml_confidence := 0, combined_score := 1 }

/-- An exchange that accepts every order. -/
def envOK : ExecEnv :=
  { balance := 1000, now := 0,
    set_order := fun _ => Except.ok { code := "0", ordId := "1" } }

/-- The bot's configured parameter defaults (okx_futures_bot.py lines
51-58). -/
def cfg0 : BotConfig :=
  { leverage := 10, risk_per_trade := 1/20, min_signal_strength := 3/10,
    stop_loss_pct := 1/50, take_profit_pct := 1/25,
    symbols := ["BTC-USDT-SWAP", "ETH-USDT-SWAP", "BNB-USDT-SWAP",
                "ADA-USDT-SWAP", "SOL-USDT-SWAP"] }

/-- A control store whose status key reads "emergency_stopped". -/
def store_es : ControlStore :=
  { settings := StoreRead.absent,
    status := StoreRead.value { status := some "emergency_stopped" } }

/-- An open long position. -/
def pos1 : PositionInfo :=
  { side := "buy", entry_price := 100, quantity := 1, order_id := "a",
    signal_strength := 1/2, timestamp := 0 }

/-- An open short position. -/
def pos2 : PositionInfo :=
  { side := "sell", entry_price := 200, quantity := 2, order_id := "b",
    signal_strength := 1/2, timestamp := 0 }

/-- A bot tracking one open position. -/
def bot1 : BotState :=
  { positions := [("BTC-USDT-SWAP", pos1)], running := true }

/-- A bot tracking two open positions. -/
def bot2 : BotState :=
  { positions := [("BTC-USDT-SWAP", pos1), ("ETH-USDT-SWAP", pos2)],
    running := true }

/-- A market feed with no data. -/
def market0 : String → List RawBar := fun _ => []

/-- A signal oracle that never signals. -/
def gen0 : String → List RawBar → Option String × ℚ := fun _ _ => (none, 0)

/-! ## Helper lemmas -/

/-- Dropping fewer elements than the length preserves the last element. -/
theorem getLast?_drop_of_lt {α : Type} :
    ∀ (l : List α) (k : Nat), k < l.length →
      (l.drop k).getLast? = l.getLast?
  | [], k, h => by simp at h
  | _ :: _, 0, _ => rfl
  | a :: t, k + 1, h => by
    have ht : k < t.length := Nat.lt_of_succ_lt_succ h
    have ih := getLast?_drop_of_lt t k ht
    rw [List.drop_succ_cons, ih]
    cases t with
    | nil => simp at ht
    | cons b t' => rw [List.getLast?_cons_cons]

/-- Trimming the history to its last 100 entries preserves the last
entry. -/
theorem getLast?_trim_append (h : List HistoryEntry) (e : HistoryEntry) :
    (trim_history (h ++ [e])).getLast? = some e := by
  unfold trim_history
  split
  · rw [getLast?_drop_of_lt _ _ (Nat.sub_lt (by omega) (by omega))]
    exact List.getLast?_concat h
  · exact List.getLast?_concat h

/-- Strength from thresholding is `min |cs| 1` on a non-NONE signal. -/
theorem threshold_strength_of_ne (cs : ℚ)
    (h : (threshold_signal cs).1 ≠ TradeSignal.NONE) :
    (threshold_signal cs).2 = min |cs| 1 := by
  unfold threshold_signal at h ⊢
  by_cases h1 : 3/10 < cs
  · simp [h1]
  · by_cases h2 : cs < -(3/10)
    · simp [h1, h2]
    · simp [h1, h2] at h

/-- Strength from thresholding is 0 on a NONE signal. -/
theorem threshold_strength_of_eq (cs : ℚ)
    (h : (threshold_signal cs).1 = TradeSignal.NONE) :
    (threshold_signal cs).2 = 0 := by
  unfold threshold_signal at h ⊢
  by_cases h1 : 3/10 < cs
  · simp [h1] at h
  · by_cases h2 : cs < -(3/10)
    · simp [h1, h2] at h
    · simp [h1, h2]

/-- Decay of a zero strength is zero. -/
theorem apply_decay_zero (history : List HistoryEntry) (sig : TradeSignal) :
    apply_decay history sig 0 = 0 := by
  unfold apply_decay
  cases history.getLast? with
  | none => rfl
  | some last => split <;> norm_num

/-- A NONE decision from `combine_signals` carries strength 0. -/
theorem combine_strength_zero_of_none (history : List HistoryEntry)
    (t : TechnicalSignals) (mlp mlc : ℚ)
    (h : (combine_signals history t mlp mlc).1.1 = TradeSignal.NONE) :
    (combine_signals history t mlp mlc).1.2 = 0 := by
  simp only [combine_signals] at h ⊢
  rw [threshold_strength_of_eq _ h]
  exact apply_decay_zero _ _

/-- A symbol with no tracked position occurs zero times in the dict. -/
theorem countPos_zero_of_lookup_none :
    ∀ (positions : List (String × PositionInfo)) (symbol : String),
      lookupPos positions symbol = none →
      (positions.filter (fun kv => kv.1 == symbol)).length = 0
  | [], _, _ => rfl
  | kv :: rest, symbol, h => by
    unfold lookupPos at h
    by_cases hk : kv.1 = symbol
    · rw [if_pos hk] at h
      exact absurd h (by simp)
    · rw [if_neg hk] at h
      have ih := countPos_zero_of_lookup_none rest symbol h
      have hbeq : (kv.1 == symbol) = false := by simp [hk]
      simp only [List.filter_cons, hbeq, Bool.false_eq_true, if_false]
      exact ih

/-! ## Claim theorems -/

/-- C9: every Bar window that, after numeric coercion and NaN-row removal,
contains fewer than 21 rows makes the Feature Engine return the all-zero
technical-signal set; being a total function, the embedding raises no
exception. -/
theorem short_window_returns_zero_signals
    (fullSig : List Bar → TechnicalSignals) (df : List RawBar)
    (h : (dropna df).length < 21) :
    calculate_technical_signals fullSig df = zero_signals := by
  unfold calculate_technical_signals
  simp [h]

/-- Witness for C9 on a concrete 5-row window, against a non-zero signal
computation. -/
theorem short_window_returns_zero_signals_witness :
    (dropna (List.replicate 5 rb1)).length < 21 ∧
      calculate_technical_signals fullsig_one (List.replicate 5 rb1)
        = zero_signals :=
  ⟨by decide, short_window_returns_zero_signals fullsig_one _ (by decide)⟩

/-- C10: when the shared control store has no trading-settings entry, or
reading/parsing it fails, the auto-trading flag is read as `true`. -/
theorem auto_trading_defaults_to_true (s : ControlStore)
    (h : s.settings = StoreRead.absent ∨ s.settings = StoreRead.failed) :
    get_auto_trading_status s = true := by
  unfold get_auto_trading_status
  rcases h with h | h <;> rw [h]

/-- Witness for C10 on a store whose settings read fails. -/
theorem auto_trading_defaults_to_true_witness :
    get_auto_trading_status
      { settings := StoreRead.failed, status := StoreRead.absent } = true :=
  auto_trading_defaults_to_true _ (Or.inr rfl)

/-- C8: with a nonempty history, if the preceding entry carries the same
non-NONE signal as the current decision, the produced strength is exactly
the undecayed `min |combined_score| 1` times 0.95; if the preceding signal
differs, the strength is the undecayed threshold strength; and a NONE
decision always carries strength 0 (so a NONE predecessor never changes
the produced strength). -/
theorem same_signal_decays_strength (history : List HistoryEntry)
    (t : TechnicalSignals) (mlp mlc : ℚ) (last : HistoryEntry)
    (h : history.getLast? = some last) :
    (last.signal = (combine_signals history t mlp mlc).1.1 →
      (combine_signals history t mlp mlc).1.1 ≠ TradeSignal.NONE →
      (combine_signals history t mlp mlc).1.2
        = min |combined_score t mlp mlc| 1 * (95/100))
    ∧ (last.signal ≠ (combine_signals history t mlp mlc).1.1 →
      (combine_signals history t mlp mlc).1.2
        = (threshold_signal (combined_score t mlp mlc)).2)
    ∧ ((combine_signals history t mlp mlc).1.1 = TradeSignal.NONE →
      (combine_signals history t mlp mlc).1.2 = 0) := by
  refine ⟨?_, ?_, ?_⟩
  · intro hsame hne
    simp only [combine_signals] at hsame hne ⊢
    simp only [apply_decay, h]
    rw [if_pos hsame, threshold_strength_of_ne _ hne]
  · intro hdiff
    simp only [combine_signals] at hdiff ⊢
    simp only [apply_decay, h]
    rw [if_neg (fun hc => hdiff hc)]
  · exact combine_strength_zero_of_none history t mlp mlc

/-- Witness for C8: a BUY following a recorded BUY comes out with strength
`min |combined_score| 1 * 0.95`. -/
theorem same_signal_decays_strength_witness :
    (combine_signals [entry_buy] all_one_signals 1 0).1.2
      = min |combined_score all_one_signals 1 0| 1 * (95/100) :=
  (same_signal_decays_strength [entry_buy] all_one_signals 1 0 entry_buy
    rfl).1
    (by norm_num [combine_signals, combined_score, technical_score,
      ml_weight, np_sign, threshold_signal, all_one_signals, entry_buy])
    (by
      norm_num [combine_signals, combined_score, technical_score,
        ml_weight, np_sign, threshold_signal, all_one_signals]
      decide)

/-- C6: at most one Position per instrument.  With no tracked position for
the symbol and an exchange accepting the entry order, the first
`_execute_trade` call tracks exactly one position for the symbol, and a
second call without an intervening close is a no-op: it submits no order
and leaves the tracked positions exactly as they were. -/
theorem single_position_per_instrument (env : ExecEnv) (cfg : BotConfig)
    (positions : List (String × PositionInfo)) (symbol signal : String)
    (price strength : ℚ) (resp : OrderResp)
    (hfresh : lookupPos positions symbol = none)
    (hcode : resp.code = "0")
    (henv : ∀ req, env.set_order req = Except.ok resp) :
    ((execute_trade env cfg positions symbol signal price strength).1.filter
        (fun kv => kv.1 == symbol)).length = 1
    ∧ execute_trade env cfg
        (execute_trade env cfg positions symbol signal price strength).1
        symbol signal price strength
      = ((execute_trade env cfg positions symbol signal price strength).1,
         []) := by
  have hstep : (execute_trade env cfg positions symbol signal price
      strength).1
      = (symbol,
          { side := if signal = "BUY" then "buy" else "sell",
            entry_price := price,
            quantity := env.balance * cfg.risk_per_trade * cfg.leverage
              / price,
            order_id := resp.ordId, signal_strength := strength,
            timestamp := env.now }) :: positions := by
    unfold execute_trade
    rw [hfresh]
    simp only [henv]
    rw [if_pos hcode]
  constructor
  · rw [hstep]
    simp only [List.filter_cons, beq_self_eq_true, if_pos, List.length_cons]
    rw [countPos_zero_of_lookup_none positions symbol hfresh]
  · rw [hstep]
    unfold execute_trade
    unfold lookupPos
    simp

/-- Witness for C6: opening "BTC-USDT-SWAP" twice against an
always-accepting exchange leaves exactly one tracked position. -/
theorem single_position_per_instrument_witness :
    ((execute_trade envOK cfg0 [] "BTC-USDT-SWAP" "BUY" 100 (1/2)).1.filter
        (fun kv => kv.1 == "BTC-USDT-SWAP")).length = 1
    ∧ execute_trade envOK cfg0
        (execute_trade envOK cfg0 [] "BTC-USDT-SWAP" "BUY" 100 (1/2)).1
        "BTC-USDT-SWAP" "BUY" 100 (1/2)
      = ((execute_trade envOK cfg0 [] "BTC-USDT-SWAP" "BUY" 100 (1/2)).1,
         []) :=
  single_position_per_instrument envOK cfg0 [] "BTC-USDT-SWAP" "BUY" 100
    (1/2) { code := "0", ordId := "1" } rfl rfl (fun _ => rfl)

/-- C1 counterexample: with the control store reading "emergency_stopped"
and two open positions, one control-loop pass closes nothing (both
positions remain tracked), submits no order, processes no instrument, and
leaves `self.running` true, so the loop re-polls instead of exiting — the
claim's "all positions closed and loop exits" is false on this input. -/
theorem emergency_stop_unhandled_cex :
    get_trading_status store_es = "emergency_stopped"
    ∧ bot2.positions.length = 2
    ∧ (run_iteration store_es envOK market0 gen0 cfg0 bot2).1 = bot2
    ∧ (run_iteration store_es envOK market0 gen0 cfg0 bot2).2.1 = []
    ∧ (run_iteration store_es envOK market0 gen0 cfg0 bot2).2.2 = [] :=
  ⟨rfl, rfl, rfl, rfl, rfl⟩

/-- C1 (amended): a control-loop pass that reads status
"emergency_stopped" is handled by the generic non-"running" branch: it
skips trading entirely — no instrument is processed, no order is
submitted, the tracked positions and the running flag are unchanged — and
the loop keeps polling rather than closing positions or exiting. -/
theorem emergency_status_skips_cycle (store : ControlStore) (env : ExecEnv)
    (market : String → List RawBar)
    (gen : String → List RawBar → Option String × ℚ)
    (cfg : BotConfig) (st : BotState)
    (h : get_trading_status store = "emergency_stopped") :
    run_iteration store env market gen cfg st = (st, [], []) := by
  simp only [run_iteration, h]
  rw [if_pos (by decide : ("emergency_stopped" : String) ≠ "running")]

/-- Witness for the amended C1 on the concrete emergency-stopped store. -/
theorem emergency_status_skips_cycle_witness :
    run_iteration store_es envOK market0 gen0 cfg0 bot2 = (bot2, [], []) :=
  emergency_status_skips_cycle store_es envOK market0 gen0 cfg0 bot2 rfl

/-- C3 counterexample: after the shutdown path runs on a bot with one open
position, the close order has been submitted (opposite side, tracked
quantity) but the position is still tracked — the claim's "the instrument
is no longer tracked" is false on this input. -/
theorem stop_leaves_position_tracked_cex :
    (stop bot1).2 = [close_order_req ("BTC-USDT-SWAP", pos1)]
    ∧ lookupPos (stop bot1).1.positions "BTC-USDT-SWAP" = some pos1 :=
  ⟨rfl, rfl⟩

/-- C3 (amended): for every tracked position, the shutdown path submits a
market order on the opposite side sized to the tracked quantity
(responses ignored, per-symbol failures caught), and clears the running
flag — but it never removes any Position from tracking: the positions
dict after `stop` is exactly the one before. -/
theorem stop_closes_without_untracking (st : BotState) :
    (stop st).1.positions = st.positions
    ∧ (stop st).1.running = false
    ∧ (stop st).2 = st.positions.map close_order_req :=
  ⟨rfl, rfl, rfl⟩

/-- C5 counterexample: calling `predict` on an untrained predictor raises
`ValueError` instead of returning the neutral `(0.0, 0.0)` — the claim's
"never raises to its caller, including on an untrained model" is false on
this input. -/
theorem predict_raises_on_untrained_cex :
    PricePredictor.predict cf0 npstd0 untrained []
      = Except.error "Model must be trained before making predictions" :=
  rfl

/-- C5 (amended): `predict` raises `ValueError` whenever the predictor is
untrained, and a failure of the stored scaler transform (which sits
outside the `try` block) propagates to the caller; on a trained
predictor it returns the neutral `(0.0, 0.0)` when the computed feature
frame is empty, when the feature intersection is empty, when no model is
stored (the `None.predict` `AttributeError` is raised inside the `try`
and caught), and when model inference fails (likewise caught). -/
theorem predict_untrained_raises_otherwise_guarded
    (cf : List RawBar → FeatureFrame) (npStd : List ℚ → ℚ)
    (p : PricePredictor) (df : List RawBar) :
    (p.is_trained = false →
      PricePredictor.predict cf npStd p df
        = Except.error "Model must be trained before making predictions")
    ∧ (p.is_trained = true → (cf df).nRows = 0 →
      PricePredictor.predict cf npStd p df = Except.ok ((0, 0), p))
    ∧ (p.is_trained = true → (cf df).nRows ≠ 0 →
      predict_available cf p df = [] →
      PricePredictor.predict cf npStd p df
        = Except.ok ((0, 0), predict_self2 cf p df))
    ∧ (p.is_trained = true → (cf df).nRows ≠ 0 →
      predict_available cf p df ≠ [] → ∀ e : String,
      predict_scaled cf p df = Except.error e →
      PricePredictor.predict cf npStd p df = Except.error e)
    ∧ (p.is_trained = true → (cf df).nRows ≠ 0 →
      predict_available cf p df ≠ [] → ∀ ls : List ℚ,
      predict_scaled cf p df = Except.ok ls →
      (predict_self2 cf p df).model = none →
      PricePredictor.predict cf npStd p df
        = Except.ok ((0, 0), predict_self2 cf p df))
    ∧ (p.is_trained = true → (cf df).nRows ≠ 0 →
      predict_available cf p df ≠ [] →
      ∀ (ls : List ℚ) (m : MLModel) (emsg : String),
      predict_scaled cf p df = Except.ok ls →
      (predict_self2 cf p df).model = some m →
      m.predictFn ls = Except.error emsg →
      PricePredictor.predict cf npStd p df
        = Except.ok ((0, 0), predict_self2 cf p df)) := by
  refine ⟨?_, ?_, ?_, ?_, ?_, ?_⟩
  · intro h
    unfold PricePredictor.predict
    rw [h]
    simp
  · intro h1 h2
    unfold PricePredictor.predict
    rw [h1]
    simp [h2]
  · intro h1 h2 h3
    simp only [predict_available, predict_self1] at h3
    simp only [PricePredictor.predict]
    rw [if_neg (show ¬ p.is_trained = false by simp [h1]), if_neg h2, if_pos h3]
    simp only [predict_self2, predict_missing, predict_available,
      predict_self1]
  · intro h1 h2 h3 e h4
    simp only [predict_available, predict_self1] at h3
    simp only [predict_scaled, predict_self2, predict_missing,
      predict_available, predict_self1] at h4
    simp only [PricePredictor.predict]
    rw [if_neg (show ¬ p.is_trained = false by simp [h1]), if_neg h2, if_neg h3, h4]
  · intro h1 h2 h3 ls h4 h5
    simp only [predict_available, predict_self1] at h3
    simp only [predict_scaled, predict_self2, predict_missing,
      predict_available, predict_self1] at h4
    simp only [predict_self2, predict_missing, predict_available,
      predict_self1] at h5
    simp only [PricePredictor.predict]
    rw [if_neg (show ¬ p.is_trained = false by simp [h1]), if_neg h2, if_neg h3, h4]
    simp only [h5]
    simp only [predict_self2, predict_missing, predict_available,
      predict_self1]
  · intro h1 h2 h3 ls m emsg h4 h5 h6
    simp only [predict_available, predict_self1] at h3
    simp only [predict_scaled, predict_self2, predict_missing,
      predict_available, predict_self1] at h4
    simp only [predict_self2, predict_missing, predict_available,
      predict_self1] at h5
    simp only [PricePredictor.predict]
    rw [if_neg (show ¬ p.is_trained = false by simp [h1]), if_neg h2, if_neg h3, h4]
    simp only [h5, h6]
    simp only [predict_self2, predict_missing, predict_available,
      predict_self1]

/-- Witness for the amended C5: the untrained raise, the empty-frame,
empty-intersection, missing-model and failing-model neutral results, and
the propagated scaler failure, each on concrete inputs. -/
theorem predict_untrained_raises_otherwise_guarded_witness :
    PricePredictor.predict cf0 npstd0 untrained []
        = Except.error "Model must be trained before making predictions"
    ∧ PricePredictor.predict cf0 npstd0 trained_empty_frame []
        = Except.ok ((0, 0), trained_empty_frame)
    ∧ PricePredictor.predict cf_pc npstd0 p_missing_all []
        = Except.ok ((0, 0), predict_self2 cf_pc p_missing_all [])
    ∧ PricePredictor.predict cf_pc npstd0 p_scaler_bad []
        = Except.error
            "X has a different number of features than the fitted scaler"
    ∧ PricePredictor.predict cf_pc npstd0 p_model_none []
        = Except.ok ((0, 0), predict_self2 cf_pc p_model_none [])
    ∧ PricePredictor.predict cf_pc npstd0 p_model_fail []
        = Except.ok ((0, 0), predict_self2 cf_pc p_model_fail []) :=
  ⟨(predict_untrained_raises_otherwise_guarded cf0 npstd0 untrained
      []).1 rfl,
   (predict_untrained_raises_otherwise_guarded cf0 npstd0
      trained_empty_frame []).2.1 rfl rfl,
   (predict_untrained_raises_otherwise_guarded cf_pc npstd0 p_missing_all
      []).2.2.1 rfl (by decide) rfl,
   (predict_untrained_raises_otherwise_guarded cf_pc npstd0 p_scaler_bad
      []).2.2.2.1 rfl (by decide) (by decide)
      "X has a different number of features than the fitted scaler" rfl,
   (predict_untrained_raises_otherwise_guarded cf_pc npstd0 p_model_none
      []).2.2.2.2.1 rfl (by decide) (by decide) [0] rfl rfl,
   (predict_untrained_raises_otherwise_guarded cf_pc npstd0 p_model_fail
      []).2.2.2.2.2 rfl (by decide) (by decide) [0] model_fail
      "inference failed" rfl rfl rfl⟩

/-- C7 counterexample: a `predict` call on a predictor expecting
`price_change` and `volume_ratio`, against a frame supplying only
`price_change`, succeeds but rewrites `feature_columns` to the
intersection — the claim's "feature_columns equal their values before the
call, including calls with missing features" is false on this input. -/
theorem predict_mutates_feature_columns_cex :
    (PricePredictor.predict cf_pc npstd0 p_two_cols []).toOption.map
        (fun r => r.2.feature_columns) = some ["price_change"]
    ∧ p_two_cols.feature_columns ≠ ["price_change"] :=
  ⟨rfl, by decide⟩

/-- C7 (amended): any successful `predict` call leaves the model, the
scaler, the model type and the trained flag untouched; only
`feature_columns` can be reassigned (to the default list when empty, or
to the available intersection when expected features are missing). -/
theorem predict_preserves_model_scaler
    (cf : List RawBar → FeatureFrame) (npStd : List ℚ → ℚ)
    (p : PricePredictor) (df : List RawBar)
    (out : (ℚ × ℚ) × PricePredictor)
    (h : PricePredictor.predict cf npStd p df = Except.ok out) :
    out.2.model = p.model ∧ out.2.scaler = p.scaler
    ∧ out.2.model_type = p.model_type
    ∧ out.2.is_trained = p.is_trained := by
  simp only [PricePredictor.predict] at h
  repeat' split at h
  all_goals
    first
      | exact Except.noConfusion h
      | (injection h with h2; subst h2; exact ⟨rfl, rfl, rfl, rfl⟩)

/-- Witness for the amended C7: the mutating call of the counterexample
still preserves the model and scaler. -/
theorem predict_preserves_model_scaler_witness :
    PricePredictor.predict cf_pc npstd0 p_two_cols []
        = Except.ok ((0, 1/2),
            { p_two_cols with feature_columns := ["price_change"] })
    ∧ ({ p_two_cols with feature_columns := ["price_change"] }
        : PricePredictor).model = p_two_cols.model :=
  ⟨rfl,
   (predict_preserves_model_scaler cf_pc npstd0 p_two_cols []
      ((0, 1/2), { p_two_cols with feature_columns := ["price_change"] })
      rfl).1⟩

/-- C2 counterexample: with no prediction artifact, a 21-row window whose
technical signals alone put the combined score well above the BUY
threshold still produces no BUY: the `|prediction| < 0.001` post-filter
fires on the neutral prediction 0 and suppresses the decision to NONE
with strength 0 — the claim's "still yields a BUY Decision" is false on
this input. -/
theorem no_artifact_buy_suppressed_cex :
    (3/10 : ℚ)
      < combined_score (calculate_technical_signals fullsig_one df21) 0 0
    ∧ (generate_signal cf0 npstd0 fullsig_one strat_none df21).1
        = (TradeSignal.NONE, 0) := by
  have h21 : calculate_technical_signals fullsig_one df21 = all_one_signals :=
    rfl
  have hml : get_ml_prediction cf0 npstd0 strat_none df21
      = ((0, 0), strat_none) := rfl
  have hcs : combined_score all_one_signals 0 0 = 1 := by
    norm_num [combined_score, technical_score, ml_weight, np_sign,
      all_one_signals]
  have hth : threshold_signal 1 = (TradeSignal.BUY, 1) := by
    norm_num [threshold_signal]
  have hcomb : combine_signals [] all_one_signals 0 0
      = ((TradeSignal.BUY, 1),
         [{ signal := TradeSignal.BUY, strength := 1, technical_score := 1,
            ml_prediction := 0, ml_confidence := 0,
            combined_score := 1 }]) := by
    have hts : technical_score all_one_signals = 1 := by
      norm_num [technical_score, all_one_signals]
    simp only [combine_signals, hcs, hts, hth, apply_decay,
      trim_history, List.getLast?]
    norm_num
  constructor
  · rw [h21, hcs]
    norm_num
  · simp only [generate_signal, hml, h21]
    simp only [strat_none]
    rw [hcomb]
    norm_num
    decide

/-- C2 (amended): an instrument with no artifact (predictor absent) does
get the neutral prediction `(0, 0)` and its combined score is computed
from technical signals alone, but the `|prediction| < 0.001` post-filter
then suppresses every decision: the pipeline always returns NONE with
strength 0, so such an instrument never trades at all. -/
theorem no_artifact_never_trades (cf : List RawBar → FeatureFrame)
    (npStd : List ℚ → ℚ) (fullSig : List Bar → TechnicalSignals)
    (st : EnhancedStrategy) (df : List RawBar)
    (h : st.predictor = none) :
    get_ml_prediction cf npStd st df = ((0, 0), st)
    ∧ (generate_signal cf npStd fullSig st df).1
        = (TradeSignal.NONE, 0) := by
  have hml : get_ml_prediction cf npStd st df = ((0, 0), st) := by
    unfold get_ml_prediction
    rw [h]
  refine ⟨hml, ?_⟩
  simp only [generate_signal, hml]
  by_cases hc : (combine_signals st.signal_history
      (calculate_technical_signals fullSig df) 0 0).1.1 = TradeSignal.NONE
  · rw [if_neg (by simp [hc])]
    rw [Prod.ext_iff]
    exact ⟨hc, combine_strength_zero_of_none _ _ _ _ hc⟩
  · rw [if_pos (by simpa using hc)]
    rw [if_pos (by norm_num : |(0 : ℚ)| < 1/1000)]

/-- Witness for the amended C2 on the artifact-less strategy the bot
actually builds. -/
theorem no_artifact_never_trades_witness :
    get_ml_prediction cf0 npstd0 strat_none df21 = ((0, 0), strat_none)
    ∧ (generate_signal cf0 npstd0 fullsig_one strat_none df21).1
        = (TradeSignal.NONE, 0) :=
  no_artifact_never_trades cf0 npstd0 fullsig_one strat_none df21 rfl

/-- C4 counterexample: a cycle whose fused decision is BUY with strength
0.35 is suppressed by the `strength < 0.4` post-filter — the returned
decision is NONE with strength 0 — yet the entry stored in the history is
BUY with strength 0.35, not the suppressed decision the claim
requires. -/
theorem history_entry_prefilter_cex :
    (generate_signal cf_pc npstd0 fullsig_emadown strat_const df21).1
        = (TradeSignal.NONE, 0)
    ∧ ((generate_signal cf_pc npstd0 fullsig_emadown strat_const df21
        ).2.2.signal_history.getLast?).map (fun e => (e.signal, e.strength))
        = some (TradeSignal.BUY, 7/20) := by
  have h21 : calculate_technical_signals fullsig_emadown df21
      = ema_down_signals := rfl
  have hml : get_ml_prediction cf_pc npstd0 strat_const df21
      = ((1/100, 1/2), strat_const) := rfl
  have habs : |(7 : ℚ)/20| = 7/20 := abs_of_nonneg (by norm_num)
  have hmin : min ((7 : ℚ)/20) 1 = 7/20 := min_eq_left (by norm_num)
  have hcs : combined_score ema_down_signals (1/100) (1/2) = 7/20 := by
    norm_num [combined_score, technical_score, ml_weight, np_sign,
      ema_down_signals]
  have hth : threshold_signal (7/20) = (TradeSignal.BUY, 7/20) := by
    norm_num [threshold_signal, habs, hmin]
  have hcomb : combine_signals [] ema_down_signals (1/100) (1/2)
      = ((TradeSignal.BUY, 7/20),
         [{ signal := TradeSignal.BUY, strength := 7/20,
            technical_score := -(3/10), ml_prediction := 1/100,
            ml_confidence := 1/2, combined_score := 7/20 }]) := by
    have hts : technical_score ema_down_signals = -(3/10) := by
      norm_num [technical_score, ema_down_signals]
    simp only [combine_signals, hcs, hts, hth, apply_decay,
      trim_history, List.getLast?]
    norm_num
  constructor
  · simp only [generate_signal, hml, h21]
    simp only [strat_const]
    rw [hcomb]
    norm_num
    decide
  · simp only [generate_signal, hml, h21]
    simp only [strat_const]
    rw [hcomb]
    norm_num

/-- C4 (amended): the Decision appended to the bounded per-instrument
history is the pre-filter decision produced by `combine_signals`
(threshold and decay applied): the history written by a fusion cycle is
exactly the one `combine_signals` produces, and its last entry records
the pre-filter signal and strength — the post-filter suppression affects
only the returned decision, never the stored entry. -/
theorem history_keeps_prefilter_decision (cf : List RawBar → FeatureFrame)
    (npStd : List ℚ → ℚ) (fullSig : List Bar → TechnicalSignals)
    (st : EnhancedStrategy) (df : List RawBar) :
    (generate_signal cf npStd fullSig st df).2.2.signal_history
      = (combine_signals (get_ml_prediction cf npStd st df).2.signal_history
          (calculate_technical_signals fullSig df)
          (get_ml_prediction cf npStd st df).1.1
          (get_ml_prediction cf npStd st df).1.2).2
    ∧ ∀ (history : List HistoryEntry) (t : TechnicalSignals) (mlp mlc : ℚ),
        ∃ e : HistoryEntry,
          (combine_signals history t mlp mlc).2.getLast? = some e
          ∧ e.signal = (combine_signals history t mlp mlc).1.1
          ∧ e.strength = (combine_signals history t mlp mlc).1.2 := by
  constructor
  · rfl
  · intro history t mlp mlc
    exact ⟨_,
      by simp only [combine_signals]; exact getLast?_trim_append _ _,
      rfl, rfl⟩

end OkxBot
